import Mathlib

/-!
# Client side of the getty transport (remoting/getty/getty_client.go)

A shallow embedding of `getty_client.go`.  The collaborators that live outside the file
(the connection pool, the session, the time wheel, the configuration loader, the
pending-response registry of package `remoting`) appear as explicit oracles of a `World`
or `ConfigEnv`, and every call made on them is recorded, in program order, in a trace of
events.  Go `nil`-able pointers are `Option`s, `time.Duration` is an `Int` of nanoseconds.
-/

namespace perrors

/-- Error values: the sentinels declared at the top of getty_client.go, errors produced by
collaborators (pool, session, remote peer), and the wrapper that `WithStack` adds. -/
inductive Error where
  | errInvalidCodecType
  | errInvalidAddress
  | errSessionNotExist
  | errClientClosed
  | errClientReadTimeout
  | foreign (code : Nat)
  | withStack (inner : Error)
  deriving DecidableEq, Repr

/-- The function `perrors.WithStack`: a nil error stays nil, any other error is wrapped. -/
def WithStack : Option Error → Option Error
  | none => none
  | some e => some (Error.withStack e)

/-- The function `perrors.Cause`: strips every `WithStack` wrapper. -/
def Cause : Error → Error
  | Error.withStack e => Cause e
  | Error.errInvalidCodecType => Error.errInvalidCodecType
  | Error.errInvalidAddress => Error.errInvalidAddress
  | Error.errSessionNotExist => Error.errSessionNotExist
  | Error.errClientClosed => Error.errClientClosed
  | Error.errClientReadTimeout => Error.errClientReadTimeout
  | Error.foreign n => Error.foreign n

end perrors

namespace time

/-- The constant `time.Second`, in nanoseconds. -/
def Second : Int := 1000000000

/-- Two's-complement wrap of a 64-bit signed product (Go `int` on 64-bit targets). -/
def wrap64 (x : Int) : Int := (x + 2 ^ 63) % 2 ^ 64 - 2 ^ 63

end time

namespace remoting

open perrors

/-- The fields of `remoting.Request` that getty_client.go reads or writes, with the payload. -/
structure Request where
  Id : Int
  Version : String
  Data : Option Nat
  TwoWay : Bool
  Event : Bool
  deriving DecidableEq, Repr

/-- The fields of `remoting.PendingResponse` used by getty_client.go.  The `Done` channel is
not a field here: which of `Done` and the timer is received first is decided by the
`selectRace` oracle of the world. -/
structure PendingResponse where
  seq : Int
  Err : Option Error
  ReadStart : Int
  deriving DecidableEq, Repr

/-- Modelled from the spec: `remoting.NewRequest` (package remoting, not part of this file)
creates a request with a fresh correlation id and the given version; it is one-way, not an
event and carries no payload until the caller says otherwise. -/
def NewRequest (id : Int) (version : String) : Request :=
  { Id := id, Version := version, Data := none, TwoWay := false, Event := false }

/-- Modelled from the spec: `remoting.NewPendingResponse` (package remoting) creates the
waiting slot for a correlation id, not yet fulfilled and carrying no error. -/
def NewPendingResponse (id : Int) : PendingResponse :=
  { seq := id, Err := none, ReadStart := 0 }

/-- Modelled from the spec: the PendingResponseTable (package remoting) maps a request
correlation id to a waiting slot. -/
abbrev PendingTable := List PendingResponse

/-- Modelled from the spec: `remoting.AddPendingResponse` registers the slot under its
correlation id, replacing an older slot with the same id. -/
def AddPendingResponse (t : PendingTable) (pr : PendingResponse) : PendingTable :=
  pr :: t.filter (fun q => q.seq != pr.seq)

/-- Whether a correlation id is registered in the table. -/
def registered (t : PendingTable) (seq : Int) : Bool :=
  t.any (fun q => q.seq == seq)

end remoting

namespace getty

open perrors remoting

/-- The fields of `ClientConfig` (declared in config.go) that getty_client.go reads. -/
structure ClientConfig where
  PoolSize : Int
  PoolTTL : Int
  GrPoolSize : Int
  QueueLen : Int
  QueueNumber : Int
  deriving DecidableEq, Repr

/-- The task pool built by `gxsync.NewTaskPool`, recorded by its three options. -/
structure TaskPool where
  size : Int
  queueLen : Int
  queueNumber : Int
  deriving DecidableEq, Repr

/-- The connection pool built by `newGettyRPCClientConnPool` (pool.go), recorded by the
size and ttl arguments it was constructed from. -/
structure gettyRPCClientPool where
  size : Int
  ttl : Int
  deriving DecidableEq, Repr

/-- The constructor call `newGettyRPCClientConnPool(c, size, ttl)`. -/
def newGettyRPCClientConnPool (size ttl : Int) : gettyRPCClientPool :=
  { size := size, ttl := ttl }

/-- The struct `Options`. -/
structure Options where
  ConnectTimeout : Int
  deriving DecidableEq, Repr

/-- The struct `Client`; `pool` and `codec` are nil-able, `conf` is held by value. -/
structure Client where
  addr : String
  opts : Options
  conf : ClientConfig
  pool : Option gettyRPCClientPool
  codec : Option Nat
  deriving DecidableEq, Repr

/-- The constructor `NewClient`: a zero connect timeout becomes three seconds. -/
def NewClient (opt : Options) : Client :=
  let opt1 : Options := if opt.ConnectTimeout = 0 then { ConnectTimeout := 3 * time.Second } else opt
  { addr := "", opts := opt1, conf := ⟨0, 0, 0, 0, 0⟩, pool := none, codec := none }

/-- A pooled connection (`*gettyRPCClient`), identified by a number. -/
abbrev Conn := Nat

/-- A `getty.Session`, identified by a number. -/
abbrev Session := Nat

/-- How the `select` in `Request` goes: the timer operand `GetTimeWheel().After(timeout)`
panics before the select is entered (the wheel refuses the duration, for instance one
beyond its period or far enough below zero), or the select is entered and the timer or
`response.Done` is received first. -/
inductive Race where
  | wheelPanic
  | timer
  | done
  deriving DecidableEq, Repr

/-- The collaborators of the dispatch path, as oracles. -/
structure World where
  /-- The call `c.pool.getGettyRpcClient(addr)`. -/
  getGettyRpcClient : Option gettyRPCClientPool → String → Except Error Conn
  /-- The call `rpcClient.selectSession()`; `none` is a nil session. -/
  connSelectSession : Conn → Option Session
  /-- The call `session.WritePkg(request, timeout)`; `none` is a nil error. -/
  WritePkg : Session → remoting.Request → Int → Option Error
  /-- The call `time.Now()`. -/
  now : Int
  /-- Whether `GetTimeWheel().After(timeout)` yields a timer and, if so, which of the timer
  and `response.Done` is received first. -/
  selectRace : Int → PendingResponse → Race

/-- Calls made on collaborators, in program order. -/
inductive Ev where
  | put (pool : Option gettyRPCClientPool) (conn : Conn)
  | close (conn : Conn)
  | writePkg (s : Session) (req : remoting.Request) (timeout : Int)
  | readStart (seq : Int) (at_ : Int)
  | after (timeout : Int)
  | wait (timeout : Int) (seq : Int)
  | addPending (seq : Int)
  deriving DecidableEq, Repr

/-- How a call ends: it returns an error value (`none` is nil) or panics. -/
inductive Outcome where
  | returned (err : Option Error)
  | panicked
  deriving DecidableEq, Repr

/-- The result of running a method: its outcome, the calls it made, and the
pending-response table it leaves behind. -/
structure Run where
  outcome : Outcome
  trace : List Ev
  pending : PendingTable
  deriving DecidableEq, Repr

/-- The method `Client.selectSession`: the wrapped pool error, or the connection handed
out by the pool together with the session it selects (`none` is a nil session). -/
def Client.selectSession (w : World) (c : Client) (addr : String) :
    Except Error (Conn × Option Session) :=
  match w.getGettyRpcClient c.pool addr with
  | Except.error e => Except.error (Error.withStack e)
  | Except.ok rpcClient => Except.ok (rpcClient, w.connSelectSession rpcClient)

/-- The method `Client.transfer`: write the package, stamp `ReadStart` on a non-nil
pending response, return the wrapped write error. -/
def Client.transfer (w : World) (session : Session) (request : remoting.Request) (timeout : Int)
    (rsp : Option PendingResponse) : Option Error × List Ev :=
  let err := w.WritePkg session request timeout
  let stamp : List Ev :=
    match rsp with
    | some r => [Ev.readStart r.seq w.now]
    | none => []
  (WithStack err, Ev.writePkg session request timeout :: stamp)

/-- The deferred closure of `Request`: put the connection back when the local `err` is nil,
close it otherwise. -/
def Client.requestDeferred (c : Client) (conn : Conn) (err : Option Error) : List Ev :=
  match err with
  | none => [Ev.put c.pool conn]
  | some _ => [Ev.close conn]

/-- The method `Client.Request`.  `callback` is `true` for a non-nil callback. -/
def Client.Request (w : World) (c : Client) (request : remoting.Request) (timeout : Int)
    (callback : Bool) (response : Option PendingResponse) (table : PendingTable) : Run :=
  match Client.selectSession w c c.addr with
  | Except.error e => ⟨Outcome.returned (WithStack (some e)), [], table⟩
  | Except.ok (_, none) => ⟨Outcome.returned (some Error.errSessionNotExist), [], table⟩
  | Except.ok (conn, some session) =>
    -- the deferred closure is registered here
    match Client.transfer w session request timeout response with
    | (some e, evs) =>
      ⟨Outcome.returned (WithStack (some e)), evs ++ Client.requestDeferred c conn (some e), table⟩
    | (none, evs) =>
      if !request.TwoWay || callback then
        ⟨Outcome.returned none, evs ++ Client.requestDeferred c conn none, table⟩
      else
        match response with
        | none =>
          -- the operand response.Done dereferences a nil pointer; the deferred closure
          -- still runs, with err == nil
          ⟨Outcome.panicked, evs ++ Ev.after timeout :: Client.requestDeferred c conn none, table⟩
        | some r =>
          match w.selectRace timeout r with
          | Race.wheelPanic =>
            -- the operand After(timeout) panics; the deferred closure runs with err == nil
            ⟨Outcome.panicked, evs ++ Ev.after timeout :: Client.requestDeferred c conn none,
              table⟩
          | Race.timer =>
            ⟨Outcome.returned (WithStack (some Error.errClientReadTimeout)),
              evs ++ Ev.after timeout :: Ev.wait timeout r.seq
                :: Client.requestDeferred c conn none, table⟩
          | Race.done =>
            ⟨Outcome.returned (WithStack r.Err),
              evs ++ Ev.after timeout :: Ev.wait timeout r.seq
                :: Client.requestDeferred c conn r.Err, table⟩

/-- The method `Client.heartbeat`; `id` is the correlation id handed out by `NewRequest`. -/
def Client.heartbeat (w : World) (id : Int) (session : Session) (table : PendingTable) : Run :=
  let req0 := NewRequest id "2.0.2"
  let req : remoting.Request := { req0 with TwoWay := true, Event := true }
  let resp := NewPendingResponse req.Id
  let table1 := AddPendingResponse table resp
  let r := Client.transfer w session req (3 * time.Second) (some resp)
  ⟨Outcome.returned r.1, Ev.addPending resp.seq :: r.2, table1⟩

/-- The method `Client.Close`: the new client and the pools on which `close` was called. -/
def Client.Close (c : Client) : Client × List gettyRPCClientPool :=
  match c.pool with
  | some p => ({ c with pool := none }, [p])
  | none => ({ c with pool := none }, [])

/-- A line written through `logger`. -/
inductive LogLine where
  | info
  | warn
  deriving DecidableEq, Repr

/-- The package-level variables `clientConf` and `clientGrpool`, and the log written so far. -/
structure Globals where
  clientConf : Option ClientConfig
  clientGrpool : Option TaskPool
  log : List LogLine
  deriving DecidableEq, Repr

/-- What the configuration code consumes from outside the file: the method `CheckValidity`
of `ClientConfig` (config.go), `config.GetConsumerConfig()`, `GetDefaultClientConfig()` and
`remoting.GetCodec`.  An entry of the protocol map is given by what marshalling it and
unmarshalling it onto the default configuration produces (`none` is a yaml error). -/
structure ConfigEnv where
  CheckValidity : ClientConfig → Option Error
  ApplicationConfig : Bool
  ProtocolConf : Option (String → Option (ClientConfig → Option ClientConfig))
  defaultClientConfig : ClientConfig
  GetCodec : String → Option Nat

/-- The function `setClientGrpool`; `none` is the panic of dereferencing a nil `clientConf`. -/
def setClientGrpool (g : Globals) : Option Globals :=
  match g.clientConf with
  | none => none
  | some conf =>
    if conf.GrPoolSize > 1 then
      some { g with clientGrpool := some ⟨conf.GrPoolSize, conf.QueueLen, conf.QueueNumber⟩ }
    else some g

/-- The function `initClient`; `none` is a panic. -/
def initClient (env : ConfigEnv) (g : Globals) (protocol : String) : Option Globals :=
  if protocol = "" then some g
  else if env.ApplicationConfig = false then some g
  else
    let resolved : Option (Option (ClientConfig × Globals)) :=
      match env.ProtocolConf with
      | none => some (some (env.defaultClientConfig, { g with log := g.log ++ [LogLine.info] }))
      | some protocolConf =>
        match protocolConf protocol with
        | none => some none
        | some dubboConf =>
          match dubboConf env.defaultClientConfig with
          | none => none
          | some conf => some (some (conf, g))
    match resolved with
    | none => none
    | some none => some { g with log := g.log ++ [LogLine.warn] }
    | some (some (defaultClientConfig, g1)) =>
      let g2 : Globals := { g1 with clientConf := some defaultClientConfig }
      match env.CheckValidity defaultClientConfig with
      | some _ => some { g2 with log := g2.log ++ [LogLine.warn] }
      | none => setClientGrpool g2

/-- The function `SetClientConf`; `none` is a panic. -/
def SetClientConf (env : ConfigEnv) (g : Globals) (c : ClientConfig) : Option Globals :=
  let g1 : Globals := { g with clientConf := some c }
  match env.CheckValidity c with
  | some _ => some { g1 with log := g1.log ++ [LogLine.warn] }
  | none => setClientGrpool g1

/-- The fields of `common.URL` read by `Connect`. -/
structure URL where
  Protocol : String
  Location : String
  deriving DecidableEq, Repr

/-- The method `Client.Connect`; `none` is a panic (of `initClient`, or of dereferencing a
nil `clientConf`). -/
def Client.Connect (env : ConfigEnv) (c : Client) (g : Globals) (url : URL) :
    Option (Client × Globals) :=
  match initClient env g url.Protocol with
  | none => none
  | some g1 =>
    match g1.clientConf with
    | none => none
    | some conf =>
      some ({ c with
              conf := conf
              pool := some (newGettyRPCClientConnPool conf.PoolSize
                (time.wrap64 (time.Second * conf.PoolTTL)))
              codec := env.GetCodec url.Protocol
              addr := url.Location }, g1)

/-- Globals of a process in which no configuration was installed yet. -/
def freshGlobals : Globals :=
  { clientConf := none, clientGrpool := none, log := [] }

/-- A configuration with a non-positive pool size. -/
def zeroPoolConf : ClientConfig :=
  { PoolSize := 0, PoolTTL := 600, GrPoolSize := 0, QueueLen := 0, QueueNumber := 0 }

/-- Modelled from the spec: a `CheckValidity` that rejects a non-positive pool size (the
method itself is declared in config.go); used for the concrete configurations below. -/
def checkPoolSize (c : ClientConfig) : Option Error :=
  if c.PoolSize ≤ 0 then some (Error.foreign 1) else none

/-- An environment without consumer application config: `initClient` returns at once. -/
def bareEnv : ConfigEnv :=
  { CheckValidity := checkPoolSize, ApplicationConfig := false, ProtocolConf := none,
    defaultClientConfig := ⟨16, 600, 200, 64, 60⟩, GetCodec := fun _ => some 0 }

/-- An environment whose protocol map sets the pool size of "dubbo" to zero. -/
def zeroPoolEnv : ConfigEnv :=
  { CheckValidity := checkPoolSize, ApplicationConfig := true,
    ProtocolConf := some (fun p =>
      if p = "dubbo" then some (fun d => some { d with PoolSize := 0 }) else none),
    defaultClientConfig := ⟨16, 600, 200, 64, 60⟩, GetCodec := fun _ => some 0 }

/-- Number of `pool.put` calls made on a connection. -/
def putsOf (conn : Conn) (tr : List Ev) : Nat :=
  tr.countP (fun e => match e with
    | Ev.put _ k => k == conn
    | _ => false)

/-- Number of `close` calls made on a connection. -/
def closesOf (conn : Conn) (tr : List Ev) : Nat :=
  tr.countP (fun e => match e with
    | Ev.close k => k == conn
    | _ => false)

/-- Whether the blocking `select` on the timer and `response.Done` was entered. -/
def entersWait (tr : List Ev) : Bool :=
  tr.any (fun e => match e with
    | Ev.wait _ _ => true
    | _ => false)

/-- Whether a timer was requested from the time wheel. -/
def asksTimer (tr : List Ev) : Bool :=
  tr.any (fun e => match e with
    | Ev.after _ => true
    | _ => false)

/-- A world in which one connection (1) with one session (2) is handed out, the write
succeeds, and the `select` resolves as given. -/
def okWorld (race : Race) : World :=
  { getGettyRpcClient := fun _ _ => Except.ok 1
    connSelectSession := fun _ => some 2
    WritePkg := fun _ _ _ => none
    now := 100
    selectRace := fun _ _ => race }

/-- A world in which the write on the session fails with a transport error. -/
def writeFailWorld : World :=
  { okWorld Race.done with WritePkg := fun _ _ _ => some (Error.foreign 5) }

/-- A world in which the connection handed out by the pool yields no session. -/
def noSessionWorld : World :=
  { okWorld Race.done with connSelectSession := fun _ => none }

/-- A connected client. -/
def sampleClient : Client :=
  { addr := "127.0.0.1:20000", opts := { ConnectTimeout := 3 * time.Second },
    conf := ⟨2, 60, 0, 0, 0⟩,
    pool := some (newGettyRPCClientConnPool 2 (60 * time.Second)), codec := none }

/-- A two-way request with correlation id 7. -/
def twoWayRequest : remoting.Request :=
  { Id := 7, Version := "2.0.2", Data := some 0, TwoWay := true, Event := false }

/-- A one-way request with correlation id 8. -/
def oneWayRequest : remoting.Request :=
  { Id := 8, Version := "2.0.2", Data := some 0, TwoWay := false, Event := false }

end getty

namespace getty

open perrors remoting

/-- C1: when a connection and a session are acquired and WritePkg fails, Request returns the
write error wrapped (so non-nil, with the write error as its cause), closes the acquired
connection exactly once and never puts it back into the pool. -/
theorem Request_write_error_closes_conn (w : World) (c : Client) (request : remoting.Request)
    (timeout : Int) (callback : Bool) (response : Option PendingResponse)
    (table : PendingTable) (conn : Conn) (session : Session) (e : Error)
    (hconn : w.getGettyRpcClient c.pool c.addr = Except.ok conn)
    (hsess : w.connSelectSession conn = some session)
    (hwrite : w.WritePkg session request timeout = some e) :
    (Client.Request w c request timeout callback response table).outcome
        = Outcome.returned (some (Error.withStack (Error.withStack e)))
      ∧ Cause (Error.withStack (Error.withStack e)) = Cause e
      ∧ closesOf conn (Client.Request w c request timeout callback response table).trace = 1
      ∧ putsOf conn (Client.Request w c request timeout callback response table).trace = 0
      ∧ ∀ p k, Ev.put p k ∉ (Client.Request w c request timeout callback response table).trace := by
  cases response <;>
    simp [Client.Request, Client.selectSession, Client.transfer, Client.requestDeferred,
      hconn, hsess, hwrite, WithStack, Cause, closesOf, putsOf]

/-- Witness for C1: a failing write in a concrete world. -/
theorem Request_write_error_closes_conn_witness :
    (Client.Request writeFailWorld sampleClient twoWayRequest 5 false
        (some (NewPendingResponse 7)) []).outcome
        = Outcome.returned (some (Error.withStack (Error.withStack (Error.foreign 5))))
      ∧ closesOf 1 (Client.Request writeFailWorld sampleClient twoWayRequest 5 false
        (some (NewPendingResponse 7)) []).trace = 1
      ∧ putsOf 1 (Client.Request writeFailWorld sampleClient twoWayRequest 5 false
        (some (NewPendingResponse 7)) []).trace = 0 :=
  have h := Request_write_error_closes_conn writeFailWorld sampleClient twoWayRequest 5 false
    (some (NewPendingResponse 7)) [] 1 2 (Error.foreign 5) rfl rfl rfl
  ⟨h.1, h.2.2.1, h.2.2.2.1⟩

/-- C2: in a synchronous two-way call (TwoWay set, no callback) whose write succeeded, with
pending response r: when the timer is received first Request returns errClientReadTimeout
(wrapped by WithStack); when r.Done is received first Request returns WithStack(r.Err),
the error carried by r, which is nil exactly when r carries no error. -/
theorem Request_sync_result (w : World) (c : Client) (request : remoting.Request)
    (timeout : Int) (r : PendingResponse) (table : PendingTable) (conn : Conn)
    (session : Session)
    (hconn : w.getGettyRpcClient c.pool c.addr = Except.ok conn)
    (hsess : w.connSelectSession conn = some session)
    (hwrite : w.WritePkg session request timeout = none)
    (htwo : request.TwoWay = true) :
    (w.selectRace timeout r = Race.timer →
        (Client.Request w c request timeout false (some r) table).outcome
          = Outcome.returned (some (Error.withStack Error.errClientReadTimeout))
        ∧ Cause (Error.withStack Error.errClientReadTimeout) = Error.errClientReadTimeout)
      ∧ (w.selectRace timeout r = Race.done →
        (Client.Request w c request timeout false (some r) table).outcome
          = Outcome.returned (WithStack r.Err)
        ∧ (WithStack r.Err = none ↔ r.Err = none)
        ∧ ∀ e, r.Err = some e → ∃ e1, WithStack r.Err = some e1 ∧ Cause e1 = Cause e) := by
  refine ⟨fun h => ?_, fun h => ?_⟩
  · simp [Client.Request, Client.selectSession, Client.transfer, hconn, hsess, hwrite,
      htwo, h, WithStack, Cause]
  · refine ⟨?_, ?_, ?_⟩
    · simp [Client.Request, Client.selectSession, Client.transfer, hconn, hsess, hwrite,
        htwo, h, WithStack]
    · cases r.Err <;> simp [WithStack]
    · intro e he
      simp [he, WithStack, Cause]

/-- Witness for C2: a fulfilled response carrying an error, in a concrete world. -/
theorem Request_sync_result_witness :
    (Client.Request (okWorld Race.done) sampleClient twoWayRequest 5 false
        (some { seq := 7, Err := some (Error.foreign 9), ReadStart := 0 }) []).outcome
      = Outcome.returned (some (Error.withStack (Error.foreign 9))) :=
  ((Request_sync_result (okWorld Race.done) sampleClient twoWayRequest 5
    { seq := 7, Err := some (Error.foreign 9), ReadStart := 0 } [] 1 2 rfl rfl rfl rfl).2 rfl).1

/-- C3 (claim refuted): the write succeeds and the pending response is fulfilled carrying an
error; the connection is closed and is not put back into the pool. -/
theorem Request_carried_error_closes_conn :
    (okWorld Race.done).WritePkg 2 twoWayRequest 5 = none
      ∧ (Client.Request (okWorld Race.done) sampleClient twoWayRequest 5 false
          (some { seq := 7, Err := some (Error.foreign 9), ReadStart := 0 }) []).trace
        = [Ev.writePkg 2 twoWayRequest 5, Ev.readStart 7 100, Ev.after 5, Ev.wait 5 7,
            Ev.close 1]
      ∧ putsOf 1 (Client.Request (okWorld Race.done) sampleClient twoWayRequest 5 false
          (some { seq := 7, Err := some (Error.foreign 9), ReadStart := 0 }) []).trace = 0
      ∧ closesOf 1 (Client.Request (okWorld Race.done) sampleClient twoWayRequest 5 false
          (some { seq := 7, Err := some (Error.foreign 9), ReadStart := 0 }) []).trace = 1 := by
  refine ⟨rfl, rfl, rfl, rfl⟩

/-- C3 (amended): after a successful write the deferred closure decides on the local err.
The connection is put back once and not closed when the call returns on the one-way or
async path, on the read timeout, or on fulfilment without a carried error; on fulfilment
with a carried error the connection is closed once and not put back. -/
theorem Request_write_ok_put_or_close (w : World) (c : Client) (request : remoting.Request)
    (timeout : Int) (callback : Bool) (r : PendingResponse) (table : PendingTable)
    (conn : Conn) (session : Session)
    (hconn : w.getGettyRpcClient c.pool c.addr = Except.ok conn)
    (hsess : w.connSelectSession conn = some session)
    (hwrite : w.WritePkg session request timeout = none) :
    ((request.TwoWay = false ∨ callback = true) → ∀ response,
        putsOf conn (Client.Request w c request timeout callback response table).trace = 1
        ∧ closesOf conn (Client.Request w c request timeout callback response table).trace = 0)
      ∧ (request.TwoWay = true → callback = false → w.selectRace timeout r = Race.timer →
        putsOf conn (Client.Request w c request timeout callback (some r) table).trace = 1
        ∧ closesOf conn (Client.Request w c request timeout callback (some r) table).trace = 0)
      ∧ (request.TwoWay = true → callback = false → w.selectRace timeout r = Race.done →
        r.Err = none →
        putsOf conn (Client.Request w c request timeout callback (some r) table).trace = 1
        ∧ closesOf conn (Client.Request w c request timeout callback (some r) table).trace = 0)
      ∧ (request.TwoWay = true → callback = false → w.selectRace timeout r = Race.done →
        r.Err ≠ none →
        putsOf conn (Client.Request w c request timeout callback (some r) table).trace = 0
        ∧ closesOf conn (Client.Request w c request timeout callback (some r) table).trace = 1) := by
  refine ⟨?_, ?_, ?_, ?_⟩
  · intro h response
    have hb : (!request.TwoWay || callback) = true := by
      rcases h with h | h <;> simp [h]
    cases response <;>
      simp [Client.Request, Client.selectSession, Client.transfer, Client.requestDeferred,
        hconn, hsess, hwrite, WithStack, hb, putsOf, closesOf]
  · intro h2 hc hr
    simp [Client.Request, Client.selectSession, Client.transfer, Client.requestDeferred,
      hconn, hsess, hwrite, WithStack, h2, hc, hr, putsOf, closesOf]
  · intro h2 hc hr he
    simp [Client.Request, Client.selectSession, Client.transfer, Client.requestDeferred,
      hconn, hsess, hwrite, WithStack, h2, hc, hr, he, putsOf, closesOf]
  · intro h2 hc hr he
    obtain ⟨e, he1⟩ := Option.ne_none_iff_exists'.mp he
    simp [Client.Request, Client.selectSession, Client.transfer, Client.requestDeferred,
      hconn, hsess, hwrite, WithStack, h2, hc, hr, he1, putsOf, closesOf]

/-- Witness for C3 (amended): the read-timeout path in a concrete world puts the connection
back. -/
theorem Request_write_ok_put_or_close_witness :
    putsOf 1 (Client.Request (okWorld Race.timer) sampleClient twoWayRequest 5 false
        (some (NewPendingResponse 7)) []).trace = 1
      ∧ closesOf 1 (Client.Request (okWorld Race.timer) sampleClient twoWayRequest 5 false
        (some (NewPendingResponse 7)) []).trace = 0 :=
  (Request_write_ok_put_or_close (okWorld Race.timer) sampleClient twoWayRequest 5 false
    (NewPendingResponse 7) [] 1 2 rfl rfl rfl).2.1 rfl rfl rfl

/-- C4: when the write succeeded and the request is one-way or a callback was supplied,
Request returns nil without asking for a timer and without entering the wait, and the
result is the same for every behaviour of the timer race and every pending response. -/
theorem Request_no_wait (w : World) (c : Client) (request : remoting.Request)
    (timeout : Int) (callback : Bool) (response : Option PendingResponse)
    (table : PendingTable) (conn : Conn) (session : Session)
    (hconn : w.getGettyRpcClient c.pool c.addr = Except.ok conn)
    (hsess : w.connSelectSession conn = some session)
    (hwrite : w.WritePkg session request timeout = none)
    (hmode : request.TwoWay = false ∨ callback = true) :
    (Client.Request w c request timeout callback response table).outcome
        = Outcome.returned none
      ∧ entersWait (Client.Request w c request timeout callback response table).trace = false
      ∧ asksTimer (Client.Request w c request timeout callback response table).trace = false
      ∧ ∀ (race : Int → PendingResponse → Race) (response1 : Option PendingResponse),
          (Client.Request { w with selectRace := race } c request timeout callback
            response1 table).outcome = Outcome.returned none := by
  have hb : (!request.TwoWay || callback) = true := by
    rcases hmode with h | h <;> simp [h]
  refine ⟨?_, ?_, ?_, ?_⟩
  · simp [Client.Request, Client.selectSession, Client.transfer, hconn, hsess, hwrite,
      WithStack, hb]
  · cases response <;>
      simp [Client.Request, Client.selectSession, Client.transfer, Client.requestDeferred,
        hconn, hsess, hwrite, WithStack, hb, entersWait]
  · cases response <;>
      simp [Client.Request, Client.selectSession, Client.transfer, Client.requestDeferred,
        hconn, hsess, hwrite, WithStack, hb, asksTimer]
  · intro race response1
    simp [Client.Request, Client.selectSession, Client.transfer, hconn, hsess, hwrite,
      WithStack, hb]

/-- Witness for C4: a one-way request in a concrete world. -/
theorem Request_no_wait_witness :
    (Client.Request (okWorld Race.timer) sampleClient oneWayRequest 5 false none []).outcome
      = Outcome.returned none :=
  (Request_no_wait (okWorld Race.timer) sampleClient oneWayRequest 5 false none [] 1 2
    rfl rfl rfl (Or.inl rfl)).1

/-- C5 (evaluation at the failing input): the pool hands out connection 1, the connection
yields no session; Request returns errSessionNotExist before the deferred closure is
registered, so neither pool.put nor close is called on the connection. -/
theorem Request_nil_session_neither_put_nor_close :
    noSessionWorld.getGettyRpcClient sampleClient.pool sampleClient.addr = Except.ok 1
      ∧ noSessionWorld.connSelectSession 1 = none
      ∧ (Client.Request noSessionWorld sampleClient twoWayRequest 5 false
          (some (NewPendingResponse 7)) []).outcome
        = Outcome.returned (some Error.errSessionNotExist)
      ∧ (Client.Request noSessionWorld sampleClient twoWayRequest 5 false
          (some (NewPendingResponse 7)) []).trace = []
      ∧ putsOf 1 (Client.Request noSessionWorld sampleClient twoWayRequest 5 false
          (some (NewPendingResponse 7)) []).trace
        + closesOf 1 (Client.Request noSessionWorld sampleClient twoWayRequest 5 false
          (some (NewPendingResponse 7)) []).trace = 0 := by
  refine ⟨rfl, rfl, rfl, rfl, rfl⟩

/-- C8 (evaluation at the failing input): the entry for correlation id 7 is registered, the
write succeeds and the timer is received first; Request returns errClientReadTimeout and
the entry for id 7 is still registered in the table it leaves behind. -/
theorem Request_timeout_keeps_pending_entry :
    registered (AddPendingResponse [] (NewPendingResponse 7)) twoWayRequest.Id = true
      ∧ (Client.Request (okWorld Race.timer) sampleClient twoWayRequest 5 false
          (some (NewPendingResponse 7)) (AddPendingResponse [] (NewPendingResponse 7))).outcome
        = Outcome.returned (some (Error.withStack Error.errClientReadTimeout))
      ∧ registered (Client.Request (okWorld Race.timer) sampleClient twoWayRequest 5 false
          (some (NewPendingResponse 7))
          (AddPendingResponse [] (NewPendingResponse 7))).pending twoWayRequest.Id = true := by
  refine ⟨rfl, rfl, rfl⟩

/-- C9 (claim refuted): with timeout 0, and with timeout -5, a synchronous two-way call
whose write succeeded is not rejected and enters the timer-versus-fulfilment wait. -/
theorem Request_nonpositive_timeout_enters_wait :
    entersWait (Client.Request (okWorld Race.done) sampleClient twoWayRequest 0 false
        (some (NewPendingResponse 7)) []).trace = true
      ∧ (Client.Request (okWorld Race.done) sampleClient twoWayRequest 0 false
        (some (NewPendingResponse 7)) []).outcome = Outcome.returned none
      ∧ entersWait (Client.Request (okWorld Race.done) sampleClient twoWayRequest (-5) false
        (some (NewPendingResponse 7)) []).trace = true := by
  refine ⟨rfl, rfl, rfl⟩

/-- C9 (amended): Request does not inspect the timeout.  With a timeout less than or equal
to zero the call is neither rejected nor treated as no-wait on that account: it enters the
timer-versus-fulfilment wait exactly when a connection and a session are acquired, the
write succeeds, the request is two-way, no callback is supplied, a pending response is
present and the time wheel hands out a timer for that duration; the write, the timer and
the wait then use the unchanged timeout. -/
theorem Request_wait_ignores_timeout (w : World) (c : Client) (request : remoting.Request)
    (timeout : Int) (callback : Bool) (response : Option PendingResponse)
    (table : PendingTable) (_hto : timeout ≤ 0) :
    (entersWait (Client.Request w c request timeout callback response table).trace = true
        ↔ ∃ conn session r, w.getGettyRpcClient c.pool c.addr = Except.ok conn
            ∧ w.connSelectSession conn = some session
            ∧ w.WritePkg session request timeout = none
            ∧ request.TwoWay = true ∧ callback = false ∧ response = some r
            ∧ w.selectRace timeout r ≠ Race.wheelPanic)
      ∧ (entersWait (Client.Request w c request timeout callback response table).trace = true
        → ∃ r, response = some r
            ∧ Ev.after timeout ∈ (Client.Request w c request timeout callback response table).trace
            ∧ Ev.wait timeout r.seq
                ∈ (Client.Request w c request timeout callback response table).trace) := by
  cases hacq : w.getGettyRpcClient c.pool c.addr with
  | error e =>
    simp [Client.Request, Client.selectSession, hacq, entersWait]
  | ok conn =>
    cases hs : w.connSelectSession conn with
    | none =>
      simp [Client.Request, Client.selectSession, hacq, hs, entersWait]
    | some session =>
      cases hw : w.WritePkg session request timeout with
      | some e =>
        cases response <;>
          simp [Client.Request, Client.selectSession, Client.transfer,
            Client.requestDeferred, hacq, hs, hw, WithStack, entersWait]
      | none =>
        cases h2 : request.TwoWay <;> cases callback <;> cases response with
        | none =>
          simp [Client.Request, Client.selectSession, Client.transfer,
            Client.requestDeferred, hacq, hs, hw, h2, WithStack, entersWait]
        | some r =>
          cases hr : w.selectRace timeout r <;> cases he : r.Err <;>
            simp [Client.Request, Client.selectSession, Client.transfer,
              Client.requestDeferred, hacq, hs, hw, h2, hr, he, WithStack, entersWait]

/-- Witness for C9 (amended): a synchronous two-way call with timeout 0, in a world whose
time wheel hands out the timer, enters the wait on the unchanged timeout. -/
theorem Request_wait_ignores_timeout_witness :
    (0 : Int) ≤ 0
      ∧ ∃ r, some (NewPendingResponse 7) = some r
        ∧ Ev.after 0 ∈ (Client.Request (okWorld Race.timer) sampleClient twoWayRequest 0 false
            (some (NewPendingResponse 7)) []).trace
        ∧ Ev.wait 0 r.seq ∈ (Client.Request (okWorld Race.timer) sampleClient twoWayRequest 0
            false (some (NewPendingResponse 7)) []).trace :=
  ⟨le_refl 0, (Request_wait_ignores_timeout (okWorld Race.timer) sampleClient twoWayRequest 0
    false (some (NewPendingResponse 7)) [] (le_refl 0)).2 rfl⟩

/-- C10 (claim refuted): the heartbeat write succeeds and no response is ever fulfilled
(the timer would always be received first); heartbeat returns nil. -/
theorem heartbeat_unanswered_returns_nil :
    (Client.heartbeat (okWorld Race.timer) 7 2 []).outcome = Outcome.returned none
      ∧ entersWait (Client.heartbeat (okWorld Race.timer) 7 2 []).trace = false := by
  refine ⟨rfl, rfl⟩

/-- C10 (amended): heartbeat builds a request with TwoWay = true, Event = true and no
payload, registers a pending response for its id, and hands the request to transfer with
a fixed timeout of three seconds; it performs exactly that one write and never waits for
the response, so it returns the wrapped write error: non-nil exactly when the write
fails, nil when the write succeeds whether or not a response ever arrives. -/
theorem heartbeat_is_write_only (w : World) (id : Int) (session : Session)
    (table : PendingTable) :
    (Client.heartbeat w id session table).trace
        = [Ev.addPending id,
            Ev.writePkg session
              { Id := id, Version := "2.0.2", Data := none, TwoWay := true, Event := true }
              3000000000,
            Ev.readStart id w.now]
      ∧ (Client.heartbeat w id session table).outcome
        = Outcome.returned (WithStack (w.WritePkg session
            { Id := id, Version := "2.0.2", Data := none, TwoWay := true, Event := true }
            3000000000))
      ∧ ((Client.heartbeat w id session table).outcome = Outcome.returned none
        ↔ w.WritePkg session
            { Id := id, Version := "2.0.2", Data := none, TwoWay := true, Event := true }
            3000000000 = none)
      ∧ entersWait (Client.heartbeat w id session table).trace = false
      ∧ registered (Client.heartbeat w id session table).pending id = true := by
  refine ⟨?_, ?_, ?_, ?_, ?_⟩
  · simp [Client.heartbeat, Client.transfer, NewRequest, NewPendingResponse, time.Second]
  · simp [Client.heartbeat, Client.transfer, NewRequest, NewPendingResponse, time.Second]
  · cases h : w.WritePkg session
        { Id := id, Version := "2.0.2", Data := none, TwoWay := true, Event := true }
        3000000000 <;>
      simp [Client.heartbeat, Client.transfer, NewRequest, NewPendingResponse, time.Second,
        WithStack, h]
  · simp [Client.heartbeat, Client.transfer, NewRequest, NewPendingResponse, entersWait]
  · simp [Client.heartbeat, NewRequest, NewPendingResponse, AddPendingResponse, registered]

/-- C6: Close calls close on the owned pool when there is one and on nothing otherwise,
and always leaves the pool reference nil; on a client without a pool (never connected, or
already closed) it changes nothing; a second Close changes nothing and closes nothing, so
over two calls every pool is closed at most once. -/
theorem Close_idempotent (c : Client) :
    Client.Close c = ({ c with pool := none }, c.pool.toList)
      ∧ (Client.Close c).1.pool = none
      ∧ Client.Close { c with pool := none } = ({ c with pool := none }, [])
      ∧ (∀ opt, Client.Close (NewClient opt) = (NewClient opt, []))
      ∧ Client.Close (Client.Close c).1 = ((Client.Close c).1, [])
      ∧ (Client.Close (Client.Close c).1).1 = (Client.Close c).1
      ∧ ((Client.Close c).2 ++ (Client.Close (Client.Close c).1).2).length ≤ 1
      ∧ ∀ p, ((Client.Close c).2 ++ (Client.Close (Client.Close c).1).2).count p ≤ 1 := by
  obtain ⟨addr, opts, conf, pool, codec⟩ := c
  cases pool with
  | none =>
    simp [Client.Close, NewClient]
  | some q =>
    refine ⟨rfl, rfl, rfl, fun _ => rfl, rfl, rfl, ?_, fun p => ?_⟩
    · simp [Client.Close]
    · by_cases h : q = p <;> simp [Client.Close, List.count_cons, h]

/-- C7 (claim refuted): a configuration with pool size 0 fails CheckValidity; installed by
SetClientConf, or resolved by initClient from the protocol map, it stays in clientConf and
the following Connect constructs the pool with size 0 from it. -/
theorem Connect_builds_pool_from_rejected_conf :
    bareEnv.CheckValidity zeroPoolConf = some (Error.foreign 1)
      ∧ ((SetClientConf bareEnv freshGlobals zeroPoolConf).bind
          (fun g => Client.Connect bareEnv (NewClient ⟨0⟩) g ⟨"dubbo", "127.0.0.1:20000"⟩)).map
          (fun r => r.1.pool)
        = some (some (newGettyRPCClientConnPool 0 600000000000))
      ∧ zeroPoolEnv.CheckValidity { zeroPoolEnv.defaultClientConfig with PoolSize := 0 }
        = some (Error.foreign 1)
      ∧ (Client.Connect zeroPoolEnv (NewClient ⟨0⟩) freshGlobals
          ⟨"dubbo", "127.0.0.1:20000"⟩).map (fun r => r.1.pool)
        = some (some (newGettyRPCClientConnPool 0 600000000000)) := by
  refine ⟨rfl, ?_, rfl, ?_⟩ <;> decide

/-- C7 (amended): a configuration that fails CheckValidity is not rejected.  SetClientConf
installs it as clientConf and only logs a warning (the task pool is left as it was); when
the initClient call of a following Connect returns early, Connect constructs the pool from
its PoolSize and PoolTTL.  Likewise, when initClient itself resolves such a configuration
it installs it and Connect constructs the pool from its PoolSize and PoolTTL. -/
theorem Connect_uses_installed_conf (env : ConfigEnv) (g : Globals) (c : Client)
    (conf : ClientConfig) (url : URL) (e : Error)
    (hinv : env.CheckValidity conf = some e) :
    SetClientConf env g conf
        = some { g with clientConf := some conf, log := g.log ++ [LogLine.warn] }
      ∧ ((url.Protocol = "" ∨ env.ApplicationConfig = false
            ∨ ∃ pc, env.ProtocolConf = some pc ∧ pc url.Protocol = none) →
          ∃ c1 g1, (SetClientConf env g conf).bind (fun g0 => Client.Connect env c g0 url)
              = some (c1, g1)
            ∧ g1.clientConf = some conf ∧ g1.clientGrpool = g.clientGrpool ∧ c1.conf = conf
            ∧ c1.pool = some (newGettyRPCClientConnPool conf.PoolSize
                (time.wrap64 (time.Second * conf.PoolTTL))))
      ∧ (url.Protocol ≠ "" → env.ApplicationConfig = true →
          ((env.ProtocolConf = none ∧ env.defaultClientConfig = conf)
            ∨ ∃ pc dubboConf, env.ProtocolConf = some pc ∧ pc url.Protocol = some dubboConf
                ∧ dubboConf env.defaultClientConfig = some conf) →
          ∃ c1 g1, Client.Connect env c g url = some (c1, g1)
            ∧ g1.clientConf = some conf ∧ g1.clientGrpool = g.clientGrpool ∧ c1.conf = conf
            ∧ c1.pool = some (newGettyRPCClientConnPool conf.PoolSize
                (time.wrap64 (time.Second * conf.PoolTTL)))) := by
  have hset : SetClientConf env g conf
      = some { g with clientConf := some conf, log := g.log ++ [LogLine.warn] } := by
    simp [SetClientConf, hinv]
  refine ⟨hset, ?_, ?_⟩
  · intro hearly
    rw [hset]
    rcases hearly with h | h | ⟨pc, h1, h2⟩
    · simp only [Client.Connect, initClient, h, Option.bind, if_true]
      exact ⟨_, _, rfl, rfl, rfl, rfl, rfl⟩
    · by_cases hp : url.Protocol = ""
      · simp only [Client.Connect, initClient, hp, Option.bind, if_true]
        exact ⟨_, _, rfl, rfl, rfl, rfl, rfl⟩
      · simp only [Client.Connect, initClient, hp, h, Option.bind, if_true, if_false]
        exact ⟨_, _, rfl, rfl, rfl, rfl, rfl⟩
    · by_cases hp : url.Protocol = ""
      · simp only [Client.Connect, initClient, hp, Option.bind, if_true]
        exact ⟨_, _, rfl, rfl, rfl, rfl, rfl⟩
      · cases ha : env.ApplicationConfig
        · simp only [Client.Connect, initClient, hp, ha, Option.bind, if_true, if_false]
          exact ⟨_, _, rfl, rfl, rfl, rfl, rfl⟩
        · simp [Client.Connect, initClient, hp, ha, h1, h2]
          exact ⟨_, _, ⟨rfl, rfl⟩, rfl, rfl, rfl, rfl⟩
  · intro hp ha hres
    rcases hres with ⟨h1, h2⟩ | ⟨pc, dubboConf, h1, h2, h3⟩
    · simp [Client.Connect, initClient, hp, ha, h1, h2, hinv]
      exact ⟨_, _, ⟨rfl, rfl⟩, rfl, rfl, rfl, rfl⟩
    · simp [Client.Connect, initClient, hp, ha, h1, h2, h3, hinv]
      exact ⟨_, _, ⟨rfl, rfl⟩, rfl, rfl, rfl, rfl⟩

/-- Witness for C7 (amended): the protocol map sets the pool size of "dubbo" to zero,
CheckValidity rejects it, and Connect builds the pool from it. -/
theorem Connect_uses_installed_conf_witness :
    zeroPoolEnv.CheckValidity { zeroPoolEnv.defaultClientConfig with PoolSize := 0 }
        = some (Error.foreign 1)
      ∧ ∃ c1 g1, Client.Connect zeroPoolEnv sampleClient freshGlobals ⟨"dubbo", "10.0.0.1:20880"⟩
            = some (c1, g1)
          ∧ g1.clientConf = some { zeroPoolEnv.defaultClientConfig with PoolSize := 0 }
          ∧ g1.clientGrpool = freshGlobals.clientGrpool
          ∧ c1.conf = { zeroPoolEnv.defaultClientConfig with PoolSize := 0 }
          ∧ c1.pool = some (newGettyRPCClientConnPool
              ({ zeroPoolEnv.defaultClientConfig with PoolSize := 0 } : ClientConfig).PoolSize
              (time.wrap64 (time.Second
                * ({ zeroPoolEnv.defaultClientConfig with PoolSize := 0 } : ClientConfig).PoolTTL))) :=
  ⟨rfl, (Connect_uses_installed_conf zeroPoolEnv freshGlobals sampleClient
    { zeroPoolEnv.defaultClientConfig with PoolSize := 0 } ⟨"dubbo", "10.0.0.1:20880"⟩
    (Error.foreign 1) rfl).2.2 (by decide) rfl
    (Or.inr ⟨_, _, rfl, rfl, rfl⟩)⟩

end getty
